import Mathlib

/-
Verification of the AccessBot backend core against its specification.

The development shallowly embeds the Python source of the repository:
  * backend/app/services/ai/router.py    (AIRouter: settings resolution, dispatch)
  * backend/app/services/ai/generic.py   (GenericLLMProvider: the four format adapters)
  * backend/app/routers/chat.py          (conversation continuity, timeout recovery)
  * backend/app/plugins/manager.py       (plugin context aggregation)
  * backend/app/routers/suggestions.py   (suggestion parsing and cooldown cache)

JSON values are modelled by an inductive type; Python dicts by association
lists (keys unique, insertion order preserved, as in CPython); Python
strings by Lean strings manipulated at the character-list level so that
indexing/slicing matches Python code-point semantics; timestamps by
integer seconds; the HTTP client by an explicit transport oracle, so that
outbound network calls can be counted.  Fallible Python code is embedded
with Except over an error type mirroring the exception classes raised.
-/

namespace AccessBot

/-! ## JSON values and Python dict semantics -/

/-- Parsed JSON values (the shape handled by Python `json.loads`/dict literals).
Numbers are modelled as rationals; no claim depends on float rounding. -/
inductive Json where
  | null : Json
  | bool : Bool → Json
  | num : Rat → Json
  | str : String → Json
  | arr : List Json → Json
  | obj : List (String × Json) → Json

/-- Python `base.update(upd)` on dicts: keys of `base` keep their position and
take the updated value when `upd` rebinds them; keys only in `upd` are
appended in `upd` order.  (Both dicts are assumed to have unique keys, as
CPython dicts do.) -/
def pyDictUpdate {β : Type} (base upd : List (String × β)) : List (String × β) :=
  (base.map fun kv =>
    match upd.lookup kv.1 with
    | some v => (kv.1, v)
    | none => kv)
  ++ upd.filter fun kv => (base.lookup kv.1).isNone

/-- Python `d[k] = v` on a dict: rebind `k` in place if present, else append. -/
def pyDictSet {β : Type} (base : List (String × β)) (k : String) (v : β) :
    List (String × β) :=
  pyDictUpdate base [(k, v)]

/-! ## Python string operations, at the character level

Python strings index and slice by code point; Lean `String.data` gives the
code-point list, so all embedded string operations work on `.data`. -/

/-- Python `s[:n]` (also `s.take`): the first `n` characters. -/
def pyTake (s : String) (n : Nat) : String := ⟨s.data.take n⟩

/-- Python `len(s)`: number of code points. -/
def pyLen (s : String) : Nat := s.data.length

/-- Python `s.lower()` (the sources only lowercase ASCII). -/
def pyLower (s : String) : String := ⟨s.data.map Char.toLower⟩

/-- Python `t in s`: substring containment. -/
def strContains (s t : String) : Bool := decide (t.data <:+: s.data)

/-- Python `s.strip()`: remove leading and trailing whitespace. -/
def pyStrip (s : String) : String :=
  ⟨((s.data.dropWhile Char.isWhitespace).reverse.dropWhile Char.isWhitespace).reverse⟩

/-- Python `s.startswith(t)`. -/
def pyStartsWith (s t : String) : Bool := t.data.isPrefixOf s.data

/-- Split a character list at every occurrence of `c` (Python `s.split(c)`
for a one-character separator; also models `str.splitlines` for the
newline-separated strings the sources feed it). -/
def splitOnChar (c : Char) : List Char → List (List Char)
  | [] => [[]]
  | x :: xs =>
    let r := splitOnChar c xs
    if x = c then [] :: r
    else
      match r with
      | y :: ys => (x :: y) :: ys
      | [] => [[x]]

/-- Python `s.split(".")` specialised to the one-character separators used
by the sources, returned as strings. -/
def pySplit (s : String) (c : Char) : List String :=
  (splitOnChar c s.data).map fun l => ⟨l⟩

/-- Python `s.find(c)`: index of first occurrence, `none` for `-1`. -/
def pyFind (s : String) (c : Char) : Option Nat :=
  s.data.findIdx? (· = c)

/-- Python `s.rfind(c)`: index of last occurrence, `none` for `-1`. -/
def pyRFind (s : String) (c : Char) : Option Nat :=
  match s.data.reverse.findIdx? (· = c) with
  | some i => some (s.data.length - 1 - i)
  | none => none

/-- Python `s[a:b]` (character slice). -/
def pySlice (s : String) (a b : Nat) : String :=
  ⟨(s.data.drop a).take (b - a)⟩

/-- Python `str(x)` on a parsed JSON value, as used by the suggestion
validator (`str(item.get("text", ""))`).  On strings it is the identity;
the non-string renderings follow CPython (`None`/`True`/`False`); the
rendering of composite values and numbers is irrelevant to every claim
(only totality and the string case matter) and is given a simple spelling. -/
def pyStr : Json → String
  | .null => "None"
  | .bool true => "True"
  | .bool false => "False"
  | .str s => s
  | .num q => toString q
  | .arr _ => "[...]"
  | .obj _ => "\x7b...\x7d"

/-! ## Settings resolver (backend/app/services/ai/router.py, AIRouter.get_user_settings) -/

/-- The `user_ai_settings` database row (backend/app/models/settings.py).
Nullable columns are `Option`s.  Voice-only columns are omitted: no code
under verification reads them. -/
structure UserAISettingsRec where
  provider_name : String
  api_format : String
  api_endpoint : String
  api_key : Option String
  model_name : Option String
  temperature : Rat
  max_tokens : Nat
  auth_type : String
  custom_headers : Option (List (String × String))
  extra_params : Option (List (String × Json))
  vision_enabled : Option Bool

/-- The normalized settings dict produced by `AIRouter.get_user_settings`.
`None`-valued string fields of the row are represented by `""` (the two are
indistinguishable to every consumer, which only tests truthiness). -/
structure AISettings where
  provider_name : String
  api_format : String
  api_endpoint : String
  api_key : String
  model_name : String
  temperature : Rat
  max_tokens : Nat
  auth_type : String
  custom_headers : List (String × String)
  extra_params : List (String × Json)
  vision_enabled : Bool

/-- `AIRouter.get_user_settings` (router.py lines 15-47): the single global
settings row, or the safe defaults when the table is empty. -/
def getUserSettings (row : Option UserAISettingsRec) : AISettings :=
  match row with
  | none =>
    { provider_name := "unconfigured"
      api_format := "openai"
      api_endpoint := ""
      api_key := ""
      model_name := ""
      temperature := 7/10
      max_tokens := 1000
      auth_type := "none"
      custom_headers := []
      extra_params := []
      vision_enabled := false }
  | some s =>
    { provider_name := s.provider_name
      api_format := s.api_format
      api_endpoint := s.api_endpoint
      api_key := s.api_key.getD ""
      model_name := s.model_name.getD ""
      temperature := s.temperature
      max_tokens := s.max_tokens
      auth_type := s.auth_type
      custom_headers := s.custom_headers.getD []
      extra_params := s.extra_params.getD []
      vision_enabled := s.vision_enabled.getD false }

/-! ## Wire model and Python exception model -/

/-- An outbound HTTP POST, as issued by the adapters. -/
structure HttpRequest where
  url : String
  payload : List (String × Json)
  headers : List (String × String)

/-- What the HTTP client (httpx) can do on one `client.post` +
`raise_for_status()` + `.json()` sequence — the external transport boundary.
`statusError` carries the rendered text of the raised `HTTPStatusError`;
`otherError` any other client exception (connect timeout, DNS failure, bad
JSON body, ...) with its rendered text. -/
inductive WireOutcome where
  | ok (body : Json)
  | readTimeout
  | statusError (status : Nat) (text : String)
  | otherError (text : String)

/-- The transport oracle: what the network does for each request. -/
def Transport : Type := HttpRequest → WireOutcome

/-- Python exceptions the embedded code can raise.  `valueError` is the
repository's own `raise ValueError(...)`; the others mirror the builtin
exception classes that escape from the embedded expressions. -/
inductive PyErr where
  | valueError (msg : String)
  | statusError (status : Nat) (text : String)
  | keyError (key : String)
  | indexError
  | typeError
  | attributeError
  | otherError (text : String)
deriving DecidableEq

/-- `str(e)` for the embedded exceptions, as fed to the chat flow's
timeout classifier.  `str(KeyError("k"))` renders as `'k'`;
`str(IndexError(...))`/`str(TypeError(...))` as their CPython messages. -/
def PyErr.text : PyErr → String
  | .valueError m => m
  | .statusError _ t => t
  | .keyError k => "\x27" ++ k ++ "\x27"
  | .indexError => "list index out of range"
  | .typeError => "type error"
  | .attributeError => "attribute error"
  | .otherError t => t

/-- The `ValueError` message every adapter raises on `httpx.ReadTimeout`
(generic.py, the identical `except httpx.ReadTimeout` block in all four
adapters). -/
def timeoutMsg : String :=
  "The LLM took too long to respond (> 5 min). Try a smaller model or raise max_tokens."

/-- The `async with httpx.AsyncClient(...)` + `try: post / except ReadTimeout`
+ `raise_for_status()` + `response.json()` block shared verbatim by all four
adapters.  Returns the parsed body or the raised exception, paired with the
outbound requests performed (always exactly this one). -/
def httpPostJson (transport : Transport) (req : HttpRequest) :
    Except PyErr Json × List HttpRequest :=
  match transport req with
  | .ok body => (.ok body, [req])
  | .readTimeout => (.error (.valueError timeoutMsg), [req])
  | .statusError s t => (.error (.statusError s t), [req])
  | .otherError t => (.error (.otherError t), [req])

/-- Python `data[key]` on a parsed JSON value: dict lookup, else `KeyError`;
subscripting a non-dict with a string key is a `TypeError`. -/
def Json.getKey : Json → String → Except PyErr Json
  | .obj kvs, k =>
    match kvs.lookup k with
    | some v => .ok v
    | none => .error (.keyError k)
  | _, _ => .error .typeError

/-- Python `data[i]` with an integer index: list indexing, else errors. -/
def Json.getIdx : Json → Nat → Except PyErr Json
  | .arr xs, i =>
    match xs.get? i with
    | some v => .ok v
    | none => .error .indexError
  | _, _ => .error .typeError

/-- The post-then-extract shape shared by all four adapters: perform the
wire call (`httpPostJson`), then on a 2xx body run the adapter's response
extraction; any exception propagates. -/
def postAndExtract (transport : Transport) (req : HttpRequest)
    (extract : Json → Except PyErr Json) : Except PyErr Json × List HttpRequest :=
  match httpPostJson transport req with
  | (.ok data, reqs) => (extract data, reqs)
  | (.error e, reqs) => (.error e, reqs)

/-! ## Format adapters (backend/app/services/ai/generic.py) -/

/-- A normalized chat message, the `{"role": ..., "content": ...}` dicts the
routers hand to the adapters.  Content is plain text here: the only
multipart (vision) content is built for the openai/ollama formats and no
claim touches its payload shape. -/
structure ChatMsg where
  role : String
  content : String
deriving DecidableEq

/-- A message rendered back into its JSON wire form. -/
def ChatMsg.toJson (m : ChatMsg) : Json :=
  .obj [("role", .str m.role), ("content", .str m.content)]

/-- `GenericLLMProvider._openai_format` (generic.py lines 49-90). -/
def openaiFormat (transport : Transport) (endpoint api_key : String)
    (messages : List ChatMsg) (model : String) (temperature : Rat)
    (max_tokens : Nat) (settings : AISettings) :
    Except PyErr Json × List HttpRequest :=
  let headers := [("Content-Type", "application/json")]
  let headers := if api_key ≠ "" then
      headers ++ [("Authorization", "Bearer " ++ api_key)] else headers
  let headers := pyDictUpdate headers settings.custom_headers
  let payload : List (String × Json) :=
    [("model", .str model), ("messages", .arr (messages.map ChatMsg.toJson)),
     ("temperature", .num temperature), ("max_tokens", .num max_tokens),
     ("stream", .bool false)]
  let payload := pyDictUpdate payload settings.extra_params
  -- data["choices"][0]["message"]["content"]
  postAndExtract transport ⟨endpoint, payload, headers⟩ fun data =>
    data.getKey "choices" >>= (Json.getIdx · 0) >>= (Json.getKey · "message")
      >>= (Json.getKey · "content")

/-- The system/messages partition inside `_anthropic_format` (generic.py
lines 109-116): one `for` loop that overwrites `system_content` at every
system-role message (so the last one wins) and keeps the others in order. -/
def anthropicPartition (messages : List ChatMsg) : Option String × List ChatMsg :=
  messages.foldl
    (fun acc msg =>
      if msg.role = "system" then (some msg.content, acc.2)
      else (acc.1, acc.2 ++ [msg]))
    (none, [])

/-- The payload built by `_anthropic_format` (generic.py lines 118-129):
base keys, then `payload["system"] = system_content` guarded by Python
truthiness (`if system_content:`), then the `extra_params` merge. -/
def anthropicPayload (messages : List ChatMsg) (model : String)
    (temperature : Rat) (max_tokens : Nat)
    (extra_params : List (String × Json)) : List (String × Json) :=
  let part := anthropicPartition messages
  let payload : List (String × Json) :=
    [("model", .str model), ("messages", .arr (part.2.map ChatMsg.toJson)),
     ("temperature", .num temperature), ("max_tokens", .num max_tokens)]
  let payload :=
    match part.1 with
    | some s => if s ≠ "" then payload ++ [("system", .str s)] else payload
    | none => payload
  pyDictUpdate payload extra_params

/-- `GenericLLMProvider._anthropic_format` (generic.py lines 92-143). -/
def anthropicFormat (transport : Transport) (endpoint api_key : String)
    (messages : List ChatMsg) (model : String) (temperature : Rat)
    (max_tokens : Nat) (settings : AISettings) :
    Except PyErr Json × List HttpRequest :=
  let headers := [("Content-Type", "application/json"),
                  ("anthropic-version", "2023-06-01")]
  let headers := if api_key ≠ "" then
      headers ++ [("x-api-key", api_key)] else headers
  let headers := pyDictUpdate headers settings.custom_headers
  let payload := anthropicPayload messages model temperature max_tokens
      settings.extra_params
  -- data["content"][0]["text"]
  postAndExtract transport ⟨endpoint, payload, headers⟩ fun data =>
    data.getKey "content" >>= (Json.getIdx · 0) >>= (Json.getKey · "text")

/-- `GenericLLMProvider._ollama_format` (generic.py lines 145-180):
temperature and `num_predict` nest inside `options`, and `extra_params`
merge into `options` (only when non-empty, per the `if extra_params:`). -/
def ollamaFormat (transport : Transport) (endpoint : String)
    (messages : List ChatMsg) (model : String) (temperature : Rat)
    (max_tokens : Nat) (settings : AISettings) :
    Except PyErr Json × List HttpRequest :=
  let headers := [("Content-Type", "application/json")]
  let options : List (String × Json) :=
    [("temperature", .num temperature), ("num_predict", .num max_tokens)]
  let options := if !settings.extra_params.isEmpty then
      pyDictUpdate options settings.extra_params else options
  let payload : List (String × Json) :=
    [("model", .str model), ("messages", .arr (messages.map ChatMsg.toJson)),
     ("stream", .bool false), ("options", .obj options)]
  -- data["message"]["content"]
  postAndExtract transport ⟨endpoint, payload, headers⟩ fun data =>
    data.getKey "message" >>= (Json.getKey · "content")

/-- The response-path walk of `_custom_format` (generic.py lines 226-230):
`for key in response_path.split("."): result = result[key]`. -/
def customExtract (data : Json) (response_path : String) : Except PyErr Json :=
  (pySplit response_path '.').foldlM Json.getKey data

/-- `GenericLLMProvider._custom_format` (generic.py lines 182-230).
`request_template` / `response_path` come out of `extra_params`; a
non-dict template or non-string path fails the way the Python attribute
accesses (`.copy()`, `.split(".")`) on a wrong-typed value would. -/
def customFormat (transport : Transport) (endpoint api_key : String)
    (messages : List ChatMsg) (settings : AISettings) :
    Except PyErr Json × List HttpRequest :=
  let headers := [("Content-Type", "application/json")]
  let headers :=
    if api_key ≠ "" then
      if settings.auth_type = "bearer" then
        headers ++ [("Authorization", "Bearer " ++ api_key)]
      else if settings.auth_type = "api_key" then
        headers ++ [("X-API-Key", api_key)]
      else headers
    else headers
  let headers := pyDictUpdate headers settings.custom_headers
  match (settings.extra_params.lookup "request_template").getD (.obj []) with
  | .obj template =>
    let payload := pyDictSet template "messages"
        (.arr (messages.map ChatMsg.toJson))
    postAndExtract transport ⟨endpoint, payload, headers⟩ fun data =>
      match (settings.extra_params.lookup "response_path").getD (.str "response") with
      | .str response_path => customExtract data response_path
      | _ => .error .attributeError
  | _ => (.error .attributeError, [])

/-! ## Provider dispatch (generic.py `chat`, router.py `AIRouter.chat`) -/

/-- The recognized format tags, i.e. the four `elif` branches of
`GenericLLMProvider.chat`. -/
def recognizedFormats : List String := ["openai", "anthropic", "ollama", "custom"]

/-- `GenericLLMProvider.chat` (generic.py lines 16-47): endpoint guard, then
dispatch on the format tag, with the unrecognized tag failing. -/
def providerChat (transport : Transport) (messages : List ChatMsg)
    (settings : AISettings) : Except PyErr Json × List HttpRequest :=
  let model := if settings.model_name = "" then "default" else settings.model_name
  if settings.api_endpoint = "" then
    (.error (.valueError "API endpoint not configured"), [])
  else if settings.api_format = "openai" then
    openaiFormat transport settings.api_endpoint settings.api_key messages model
      settings.temperature settings.max_tokens settings
  else if settings.api_format = "anthropic" then
    anthropicFormat transport settings.api_endpoint settings.api_key messages model
      settings.temperature settings.max_tokens settings
  else if settings.api_format = "ollama" then
    ollamaFormat transport settings.api_endpoint messages model
      settings.temperature settings.max_tokens settings
  else if settings.api_format = "custom" then
    customFormat transport settings.api_endpoint settings.api_key messages settings
  else
    (.error (.valueError ("Unsupported API format: " ++ settings.api_format)), [])

/-- The `ValueError` message of `AIRouter.chat`'s configuration guard. -/
def routerCfgMsg : String :=
  "LLM not configured. Please configure your AI provider in settings."

/-- `AIRouter.chat` (router.py lines 49-60): resolve settings from the
database row, guard on the unconfigured marker / missing endpoint, then
forward to the generic provider. -/
def routerChat (transport : Transport) (row : Option UserAISettingsRec)
    (messages : List ChatMsg) : Except PyErr Json × List HttpRequest :=
  let settings := getUserSettings row
  if settings.provider_name = "unconfigured" ∨ settings.api_endpoint = "" then
    (.error (.valueError routerCfgMsg), [])
  else
    providerChat transport messages settings

/-- The spec's `ConfigurationError` class, read off the raised messages:
the two configuration guards and the unsupported-format raise are the only
`ValueError`s with these texts; everything else the dispatcher can produce
(timeout, HTTP status, shape errors) is classified otherwise. -/
def isConfigError : PyErr → Bool
  | .valueError m =>
    m = routerCfgMsg || m = "API endpoint not configured" ||
      pyStartsWith m "Unsupported API format: "
  | _ => false

/-! ## Conversation continuity selector (backend/app/routers/chat.py, send_message lines 77-108) -/

/-- The snapshot of the user's most-recently-updated conversation that the
selector inspects: its `updated_at` timestamp (integer seconds; nullable
column) and the role of its latest message, `none` when the conversation
has no messages. -/
structure RecentConv where
  updatedAt : Option Int
  lastMessageRole : Option String

/-- The selector's two outcomes; `createNew` carries the title given to the
freshly created conversation. -/
inductive ContinuityDecision where
  | reuseLast : ContinuityDecision
  | createNew (title : String) : ContinuityDecision
deriving DecidableEq

/-- The continuity window: `timedelta(minutes=20)`, in seconds. -/
def continuityWindowSecs : Int := 20 * 60

/-- The `should_reuse` computation of send_message (chat.py lines 87-99):
reuse only if the most recent conversation exists, its latest message has
role `"user"`, its `updated_at` is set, and `now - updated_at` is at most
the 20-minute window; otherwise create a conversation titled
`message[:50] if len(message) > 50 else message` (chat.py line 104). -/
def selectConversation (mostRecent : Option RecentConv) (now : Int)
    (incoming : String) : ContinuityDecision :=
  let shouldReuse :=
    match mostRecent with
    | none => false
    | some conv =>
      match conv.lastMessageRole, conv.updatedAt with
      | some role, some t =>
        role = "user" && decide (now - t ≤ continuityWindowSecs)
      | _, _ => false
  if shouldReuse then .reuseLast
  else .createNew (if pyLen incoming > 50 then pyTake incoming 50 else incoming)

/-! ## Plugin context aggregator (backend/app/plugins/manager.py) -/

/-- A `user_plugins` enablement row. -/
structure UserPluginRow where
  user_id : Nat
  plugin_name : String
  enabled : Bool

/-- `PluginManager.is_enabled` (manager.py lines 29-35): the first matching
row decides; no row means enabled. -/
def isEnabled (rows : List UserPluginRow) (plugin_name : String) (user_id : Nat) :
    Bool :=
  match rows.find? fun r => r.user_id = user_id && r.plugin_name = plugin_name with
  | some r => r.enabled
  | none => true

/-- What one plugin's `get_context(user_id, db)` call does on the snapshot
under consideration: raise some exception, or return `None` / a string. -/
inductive PluginOutcome where
  | raises : PluginOutcome
  | returns (ctx : Option String) : PluginOutcome

/-- A plugin as the aggregator sees it: its registry name (registration
order is the list order, as for CPython dict values) and its `get_context`
behaviour. -/
structure RegisteredPlugin where
  name : String
  outcome : PluginOutcome

/-- `PluginManager.collect_ai_context` (manager.py lines 54-69): iterate the
registry in order; skip disabled plugins; a raising hook is swallowed
(`except Exception: pass`); a `None` or empty context fails the `if ctx:`
truthiness test; the kept parts are joined with a blank line. -/
def collectAiContext (rows : List UserPluginRow) (user_id : Nat)
    (registry : List RegisteredPlugin) : String :=
  let parts := registry.foldl
    (fun parts p =>
      if isEnabled rows p.name user_id then
        match p.outcome with
        | .returns (some ctx) => if ctx ≠ "" then parts ++ [ctx] else parts
        | _ => parts
      else parts)
    []
  String.intercalate "\n\n" parts

/-! ## Chat-flow timeout recovery (backend/app/routers/chat.py, send_message lines 176-226) -/

/-- The substrings the chat flow greps for in `str(e).lower()` to decide the
non-fatal recovery path (chat.py line 181). -/
def timeoutMarkers : List String := ["timeout", "timed out", "too long to respond"]

/-- `timeout_like` (chat.py lines 179-181). -/
def timeoutLike (errorText : String) : Bool :=
  timeoutMarkers.any fun t => strContains (pyLower errorText) t

/-- The fallback assistant message synthesized on a timeout-like failure
(chat.py lines 184-189). -/
def fallbackMessage : String :=
  "I’m still working on your request, and this model is taking longer than usual to respond. Your message was saved to this same conversation, so please keep using this chat thread. If this keeps happening, try reducing response length (max tokens), choosing a smaller/faster model, or increasing your reverse-proxy timeout."

/-- A message row persisted by the chat flow. -/
structure PersistedMsg where
  conversation_id : Nat
  role : String
  content : Json

/-- The HTTP outcome of send_message's AI phase: a 200 `ChatResponse`, or
the 502 `HTTPException` (chat.py lines 204-210). -/
inductive SendResult where
  | success (conversation_id : Nat) (message : Json)
  | gatewayError (conversation_id : Nat) (detail : String)

/-- send_message from the point where the user message has been saved
(chat.py lines 117-124) through the AI call and its error handling (lines
176-226): on success persist and return the reply; on a timeout-like
failure persist and return the fallback as a normal 200 response; on any
other failure raise the 502 gateway error, leaving only the user message
persisted.  `aiResult` is the outcome of the `ai_router.chat` call. -/
def sendMessageAIPhase (convId : Nat) (userContent : String)
    (aiResult : Except PyErr Json) : SendResult × List PersistedMsg :=
  let persisted := [⟨convId, "user", .str userContent⟩]
  match aiResult with
  | .ok reply =>
    (.success convId reply, persisted ++ [⟨convId, "assistant", reply⟩])
  | .error e =>
    if timeoutLike e.text then
      (.success convId (.str fallbackMessage),
       persisted ++ [⟨convId, "assistant", .str fallbackMessage⟩])
    else
      (.gatewayError convId ("AI service error: " ++ e.text), persisted)

/-! ## Suggestion parsing (backend/app/routers/suggestions.py, _parse_suggestions) -/

/-- A validated suggestion chip. -/
structure Suggestion where
  text : String
  action : String
  payload : String
deriving DecidableEq

/-- `VALID_ACTIONS` (suggestions.py line 205). -/
def VALID_ACTIONS : List String := ["message", "checkin", "resources", "breathing"]

/-- The per-item validation of the loop body (suggestions.py lines 234-241):
`some` exactly when the item is appended to `results`, carrying the
truncated fields. -/
def validateOne : Json → Option Suggestion
  | .obj kvs =>
    let text_val := pyTake (pyStrip (pyStr ((kvs.lookup "text").getD (.str "")))) 80
    let action_val := pyLower (pyStrip (pyStr ((kvs.lookup "action").getD (.str ""))))
    let payload_val := pyTake (pyStrip (pyStr ((kvs.lookup "payload").getD (.str "")))) 300
    if text_val ≠ "" && VALID_ACTIONS.contains action_val then
      some ⟨text_val, action_val, payload_val⟩
    else none
  | _ => none

/-- The validation loop of `_parse_suggestions` (suggestions.py lines
233-245): non-dict items are skipped by the `isinstance` guard (without
reaching the length check); after a dict item the loop breaks as soon as
`results` has 3 elements. -/
def validateItems : List Json → List Suggestion → List Suggestion
  | [], results => results
  | item :: rest, results =>
    match item with
    | .obj kvs =>
      let results' :=
        match validateOne (.obj kvs) with
        | some s => results ++ [s]
        | none => results
      if results'.length ≥ 3 then results' else validateItems rest results'
    | _ => validateItems rest results

/-- The fence-stripping step (suggestions.py lines 215-220): when the
stripped reply starts with a code fence, drop every line whose stripped
form starts with one and rejoin. -/
def stripFences (text : String) : String :=
  if pyStartsWith text "```" then
    String.intercalate "\n"
      ((pySplit text '\n').filter fun l => !pyStartsWith (pyStrip l) "```")
  else text

/-- The pure string front half of `_parse_suggestions` (suggestions.py lines
212-229 before `json.loads`): `if not raw`, strip, fence-strip, then the
`find("[")` / `rfind("]")` span; `none` when the function returns `[]`
before ever parsing. -/
def extractArraySpan (raw : String) : Option String :=
  if raw = "" then none
  else
    let text := stripFences (pyStrip raw)
    match pyFind text '[', pyRFind text ']' with
    | some s, some e => some (pySlice text s (e + 1))
    | _, _ => none

/-- `_parse_suggestions` (suggestions.py lines 207-245).  `loads` is the
external `json.loads` collaborator, returning `none` on a
`JSONDecodeError`; a successful parse of the extracted span — a string
starting with `[` — is necessarily a JSON array, so `loads` yields the
element list. -/
def parseSuggestions (loads : String → Option (List Json)) (raw : String) :
    List Suggestion :=
  match extractArraySpan raw with
  | none => []
  | some span =>
    match loads span with
    | none => []
    | some parsed => validateItems parsed []

/-! ## Suggestion cooldown cache (backend/app/routers/suggestions.py, get_suggestions) -/

/-- One `_suggestion_cache` entry: `{"last_at": now, "cached": suggestions}`. -/
structure CacheEntry where
  last_at : Int
  cached : List Suggestion
deriving DecidableEq

/-- The process-wide `_suggestion_cache`, keyed by user id. -/
abbrev SugCache : Type := List (Nat × CacheEntry)

/-- Python dict assignment `_suggestion_cache[uid] = entry`. -/
def cacheSet (cache : SugCache) (uid : Nat) (entry : CacheEntry) : SugCache :=
  if (List.lookup uid cache).isSome then
    cache.map fun kv => if kv.1 = uid then (uid, entry) else kv
  else cache ++ [(uid, entry)]

/-- `COOLDOWN_MINUTES` (suggestions.py line 37). -/
def COOLDOWN_MINUTES : Rat := 10

/-- The cooldown test (suggestions.py lines 136-140):
`(now - cached["last_at"]).total_seconds() / 60 < COOLDOWN_MINUTES`,
with timestamps in integer seconds. -/
def cacheFresh (entry : CacheEntry) (now : Int) : Bool :=
  decide (((now - entry.last_at : Int) : Rat) / 60 < COOLDOWN_MINUTES)

/-- What the body of the `try` block (suggestions.py lines 142-182) amounts
to for one invocation, abstracting the database snapshot, prompt text and
LLM transport it closes over: the conversation lookup misses (the early
`return {"suggestions": []}` at line 149, reached for a nonexistent or
foreign conversation), or the body completes with a suggestion list, or it
raises and the `except` arm (lines 180-182) substitutes `[]`.  `calls`
counts the `ai_router.chat` invocations the body performed (0 or 1). -/
inductive BodyOutcome where
  | noConv : BodyOutcome
  | completes (calls : Nat) (suggestions : List Suggestion) : BodyOutcome
  | raises (calls : Nat) : BodyOutcome

/-- The post-cooldown part of `get_suggestions`: the body, then the
unconditional cache write (suggestions.py line 185) stamped with the `now`
captured at the start of the request (line 135) — skipped only by the
early no-conversation return. -/
def getSuggestionsBody (cache : SugCache) (uid : Nat) (now : Int) :
    BodyOutcome → List Suggestion × SugCache × Nat
  | .noConv => ([], cache, 0)
  | .completes calls suggestions =>
    (suggestions, cacheSet cache uid ⟨now, suggestions⟩, calls)
  | .raises calls => ([], cacheSet cache uid ⟨now, []⟩, calls)

/-- `get_suggestions` (suggestions.py lines 122-186): the cooldown check
against the cache entry, then the body and cache write.  Returns the
suggestion list, the new cache, and the number of upstream
`ai_router.chat` calls performed. -/
def getSuggestions (cache : SugCache) (uid : Nat) (now : Int)
    (body : BodyOutcome) : List Suggestion × SugCache × Nat :=
  match List.lookup uid cache with
  | some entry =>
    if cacheFresh entry now then (entry.cached, cache, 0)
    else getSuggestionsBody cache uid now body
  | none => getSuggestionsBody cache uid now body

/-! ## Helper lemmas -/

/-- Both branches of the title expression `message[:50] if len(message) > 50
else message` produce the 50-character prefix. -/
theorem title_take50 (s : String) :
    (if pyLen s > 50 then pyTake s 50 else s) = pyTake s 50 := by
  by_cases h : pyLen s > 50
  · simp [h]
  · have hle : s.data.length ≤ 50 := by
      simpa [pyLen] using Nat.le_of_not_lt h
    simp [h, pyTake, List.take_of_length_le hle]

/-- The contributions `collect_ai_context` accumulates, as a filterMap over
the registry in registration order. -/
def pluginContributions (rows : List UserPluginRow) (user_id : Nat)
    (registry : List RegisteredPlugin) : List String :=
  registry.filterMap fun p =>
    if isEnabled rows p.name user_id then
      match p.outcome with
      | .returns (some ctx) => if ctx ≠ "" then some ctx else none
      | _ => none
    else none

theorem collectAiContext_foldl (rows : List UserPluginRow) (user_id : Nat) :
    ∀ (registry : List RegisteredPlugin) (acc : List String),
      registry.foldl
        (fun parts p =>
          if isEnabled rows p.name user_id then
            match p.outcome with
            | .returns (some ctx) => if ctx ≠ "" then parts ++ [ctx] else parts
            | _ => parts
          else parts)
        acc
      = acc ++ pluginContributions rows user_id registry := by
  intro registry
  induction registry with
  | nil => intro acc; simp [pluginContributions]
  | cons p rest ih =>
    intro acc
    rw [List.foldl_cons, ih]
    by_cases hen : isEnabled rows p.name user_id
    · cases hout : p.outcome with
      | raises => simp [pluginContributions, List.filterMap_cons, hen, hout]
      | returns ctx =>
        cases ctx with
        | none => simp [pluginContributions, List.filterMap_cons, hen, hout]
        | some c =>
          by_cases hc : c = ""
          · simp [pluginContributions, List.filterMap_cons, hen, hout, hc]
          · simp [pluginContributions, List.filterMap_cons, hen, hout, hc]
    · simp [pluginContributions, List.filterMap_cons, hen]

/-! ## Claims -/

/-- C9: with no provider configuration row, the settings resolver returns —
without any failure path — exactly the safe-default settings object:
provider name `"unconfigured"`, format `"openai"`, empty endpoint, key and
model, temperature 0.7, max tokens 1000, auth type `"none"`, empty headers
and extra params.  The resolver is a pure total function of the row, so
repeated calls necessarily yield this same value. -/
theorem settings_resolver_unconfigured_defaults :
    getUserSettings none =
      { provider_name := "unconfigured"
        api_format := "openai"
        api_endpoint := ""
        api_key := ""
        model_name := ""
        temperature := 7/10
        max_tokens := 1000
        auth_type := "none"
        custom_headers := []
        extra_params := []
        vision_enabled := false } := rfl

/-- C2: with no explicit target conversation and the most-recent
conversation loaded with a known `updated_at`, the selector reuses it
exactly when its latest message has role `"user"` and the conversation was
updated within the 20-minute window; in every other case — including no
conversation at all — it creates a new conversation titled with the first
50 characters of the incoming message. -/
theorem continuity_selector_decision
    (conv : RecentConv) (now t : Int) (incoming : String)
    (hup : conv.updatedAt = some t) :
    (selectConversation (some conv) now incoming = .reuseLast ↔
      conv.lastMessageRole = some "user" ∧ now - t ≤ 20 * 60)
    ∧ (selectConversation (some conv) now incoming ≠ .reuseLast →
        selectConversation (some conv) now incoming = .createNew (pyTake incoming 50))
    ∧ (∀ (now2 : Int) (incoming2 : String),
        selectConversation none now2 incoming2 = .createNew (pyTake incoming2 50)) := by
  obtain ⟨upd, roleOpt⟩ := conv
  change upd = some t at hup
  subst hup
  have hiff : selectConversation (some ⟨some t, roleOpt⟩) now incoming = .reuseLast ↔
      roleOpt = some "user" ∧ now - t ≤ 20 * 60 := by
    cases roleOpt with
    | none => simp [selectConversation]
    | some role =>
      by_cases hu : role = "user"
      · subst hu
        by_cases ht : now - t ≤ continuityWindowSecs
        · simp only [continuityWindowSecs] at ht
          simp [selectConversation, continuityWindowSecs, ht]
        · simp only [continuityWindowSecs] at ht
          simp [selectConversation, continuityWindowSecs, ht]
      · simp [selectConversation, hu]
  refine ⟨hiff, ?_, ?_⟩
  · intro hne
    cases hdec : selectConversation (some ⟨some t, roleOpt⟩) now incoming with
    | reuseLast => exact absurd hdec hne
    | createNew title =>
      have : title = pyTake incoming 50 := by
        cases roleOpt with
        | none =>
          simp [selectConversation, title_take50] at hdec
          exact hdec.symm
        | some role =>
          by_cases hu : role = "user"
          · by_cases ht : now - t ≤ continuityWindowSecs
            · exfalso
              apply hne
              exact hiff.mpr ⟨by rw [hu], by simpa [continuityWindowSecs] using ht⟩
            · simp [selectConversation, hu, ht, title_take50] at hdec
              exact hdec.symm
          · simp [selectConversation, hu, title_take50] at hdec
            exact hdec.symm
      rw [this]
  · intro now2 incoming2
    simp [selectConversation, title_take50]

/-- C2 witness: a conversation updated 5 minutes ago whose latest message
has role `user` is reused; with role `assistant` a new conversation titled
with the message prefix is created. -/
theorem continuity_selector_decision_witness :
    selectConversation (some ⟨some 700, some "user"⟩) 1000 "hello there" = .reuseLast
    ∧ selectConversation (some ⟨some 700, some "assistant"⟩) 1000 "hello there" =
        .createNew (pyTake "hello there" 50) := by
  constructor
  · exact (continuity_selector_decision ⟨some 700, some "user"⟩ 1000 700
      "hello there" rfl).1.mpr ⟨rfl, by decide⟩
  · have h := (continuity_selector_decision ⟨some 700, some "assistant"⟩ 1000 700
      "hello there" rfl)
    refine h.2.1 ?_
    intro hcontra
    have := h.1.mp hcontra
    simp at this

/-- C3: the aggregator never propagates a plugin failure — it is a total
function of the per-plugin outcomes, a raising hook contributing nothing —
and it returns the non-null, non-empty contributions of enabled plugins
joined with a blank-line separator in registration order, the empty string
when nothing contributes; on the three-plugin example (one raising, one
returning null, one returning `"mood: good"`) it returns exactly
`"mood: good"`. -/
theorem plugin_aggregator_safe :
    (∀ (rows : List UserPluginRow) (user_id : Nat)
        (registry : List RegisteredPlugin),
      collectAiContext rows user_id registry =
        String.intercalate "\n\n" (pluginContributions rows user_id registry))
    ∧ (∀ (rows : List UserPluginRow) (user_id : Nat)
        (registry : List RegisteredPlugin),
        pluginContributions rows user_id registry = [] →
          collectAiContext rows user_id registry = "")
    ∧ collectAiContext [] 1
        [⟨"crisis_support", .raises⟩, ⟨"mood_tracker", .returns none⟩,
         ⟨"daily_checkin", .returns (some "mood: good")⟩] = "mood: good" := by
  have hmain : ∀ (rows : List UserPluginRow) (user_id : Nat)
      (registry : List RegisteredPlugin),
      collectAiContext rows user_id registry =
        String.intercalate "\n\n" (pluginContributions rows user_id registry) := by
    intro rows user_id registry
    unfold collectAiContext
    rw [collectAiContext_foldl rows user_id registry []]
    rfl
  refine ⟨hmain, ?_, ?_⟩
  · intro rows user_id registry hnil
    rw [hmain, hnil]
    rfl
  · rfl

/-- C3 witness: the empty-contribution case returns the empty string. -/
theorem plugin_aggregator_safe_witness :
    collectAiContext [] 7 [⟨"crisis_support", .raises⟩] = "" :=
  plugin_aggregator_safe.2.1 [] 7 [⟨"crisis_support", .raises⟩] rfl

/-! ### C5: custom-format response extraction -/

/-- The claim's reading of the walk: follow each dot-separated segment
through nested objects, `some` exactly when every segment is present. -/
def walkPath : List String → Json → Option Json
  | [], j => some j
  | k :: ks, .obj kvs =>
    match kvs.lookup k with
    | some v => walkPath ks v
    | none => none
  | _ :: _, _ => none

/-- The claim's "some path segment is missing": the walk reaches an object
that does not bind the next segment. -/
def missingSeg : List String → Json → Bool
  | [], _ => false
  | k :: ks, .obj kvs =>
    match kvs.lookup k with
    | some v => missingSeg ks v
    | none => true
  | _ :: _, _ => false

theorem customExtract_of_walkPath :
    ∀ (segs : List String) (data v : Json),
      walkPath segs data = some v → segs.foldlM Json.getKey data = .ok v := by
  intro segs
  induction segs with
  | nil =>
    intro data v h
    simp [walkPath] at h
    simp [h]
    rfl
  | cons k ks ih =>
    intro data v h
    cases data with
    | obj kvs =>
      simp only [walkPath] at h
      cases hl : kvs.lookup k with
      | none => rw [hl] at h; exact absurd h (by simp)
      | some w =>
        rw [hl] at h
        have : Json.getKey (.obj kvs) k = .ok w := by simp [Json.getKey, hl]
        simp only [List.foldlM_cons, this]
        exact ih w v h
    | null => simp [walkPath] at h
    | bool b => simp [walkPath] at h
    | num q => simp [walkPath] at h
    | str s => simp [walkPath] at h
    | arr xs => simp [walkPath] at h

theorem customExtract_of_missingSeg :
    ∀ (segs : List String) (data : Json),
      missingSeg segs data = true →
        ∃ k, segs.foldlM Json.getKey data = .error (.keyError k) := by
  intro segs
  induction segs with
  | nil => intro data h; simp [missingSeg] at h
  | cons k ks ih =>
    intro data h
    cases data with
    | obj kvs =>
      simp only [missingSeg] at h
      cases hl : kvs.lookup k with
      | none =>
        refine ⟨k, ?_⟩
        have : Json.getKey (.obj kvs) k = .error (.keyError k) := by
          simp [Json.getKey, hl]
        simp only [List.foldlM_cons, this]
        rfl
      | some w =>
        rw [hl] at h
        obtain ⟨k2, hk2⟩ := ih w h
        refine ⟨k2, ?_⟩
        have : Json.getKey (.obj kvs) k = .ok w := by simp [Json.getKey, hl]
        simp only [List.foldlM_cons, this]
        exact hk2
    | null => simp [missingSeg] at h
    | bool b => simp [missingSeg] at h
    | num q => simp [missingSeg] at h
    | str s => simp [missingSeg] at h
    | arr xs => simp [missingSeg] at h

/-- C5: walking the configured dot-separated response path through the
parsed response returns the value reached by following the segments in
order — on path `"a.b.c"` over `{"a":{"b":{"c":"hello"}}}` the extraction
yields `"hello"` — and whenever a segment is missing, the extraction fails
with a `KeyError` naming a segment, the missing-key failure the callers
surface as the gateway-style `UpstreamError` (it is not a configuration
error and does not present as a timeout). -/
theorem custom_adapter_response_path :
    (customExtract (.obj [("a", .obj [("b", .obj [("c", .str "hello")])])]) "a.b.c"
      = .ok (.str "hello"))
    ∧ (∀ (data v : Json) (path : String),
        walkPath (pySplit path '.') data = some v →
          customExtract data path = .ok v)
    ∧ (∀ (data : Json) (path : String),
        missingSeg (pySplit path '.') data = true →
          ∃ k, customExtract data path = .error (.keyError k)
            ∧ isConfigError (.keyError k) = false) := by
  refine ⟨rfl, ?_, ?_⟩
  · intro data v path h
    exact customExtract_of_walkPath (pySplit path '.') data v h
  · intro data path h
    obtain ⟨k, hk⟩ := customExtract_of_missingSeg (pySplit path '.') data h
    exact ⟨k, hk, rfl⟩

/-- C5 witness: the example path succeeds concretely, and dropping the
middle segment fails with the `KeyError` for `"b"`. -/
theorem custom_adapter_response_path_witness :
    customExtract (.obj [("a", .obj [("b", .obj [("c", .str "hello")])])]) "a.b.c"
      = .ok (.str "hello")
    ∧ ∃ k, customExtract (.obj [("a", .obj [("x", .str "y")])]) "a.b.c"
      = .error (.keyError k) ∧ isConfigError (.keyError k) = false :=
  ⟨custom_adapter_response_path.2.1
      (.obj [("a", .obj [("b", .obj [("c", .str "hello")])])]) (.str "hello")
      "a.b.c" rfl,
   custom_adapter_response_path.2.2 (.obj [("a", .obj [("x", .str "y")])])
      "a.b.c" rfl⟩

/-! ### C4: Anthropic system-message partition -/

/-- The content of the last system-role message of the list, if any —
spec-side description of what the overwrite loop keeps. -/
def lastSystemContent : List ChatMsg → Option String
  | [] => none
  | m :: rest =>
    match lastSystemContent rest with
    | some s => some s
    | none => if m.role = "system" then some m.content else none

theorem anthropicPartition_foldl :
    ∀ (messages : List ChatMsg) (acc : Option String × List ChatMsg),
      messages.foldl
        (fun acc msg =>
          if msg.role = "system" then (some msg.content, acc.2)
          else (acc.1, acc.2 ++ [msg]))
        acc
      = (match lastSystemContent messages with
         | some s => some s
         | none => acc.1,
         acc.2 ++ messages.filter fun m => !(m.role == "system")) := by
  intro messages
  induction messages with
  | nil => intro acc; simp [lastSystemContent]
  | cons m rest ih =>
    intro acc
    rw [List.foldl_cons]
    by_cases hr : m.role = "system"
    · rw [if_pos hr, ih]
      simp only [lastSystemContent, List.filter_cons, hr]
      cases hl : lastSystemContent rest with
      | some s => simp [hr]
      | none => simp [hr]
    · rw [if_neg hr, ih]
      simp only [lastSystemContent, List.filter_cons]
      cases hl : lastSystemContent rest with
      | some s => simp [hr]
      | none => simp [hr]

theorem anthropicPartition_eq (messages : List ChatMsg) :
    anthropicPartition messages =
      (lastSystemContent messages,
       messages.filter fun m => !(m.role == "system")) := by
  unfold anthropicPartition
  rw [anthropicPartition_foldl]
  cases hl : lastSystemContent messages <;> simp

theorem lookup_append {α β : Type} [BEq α] (l1 l2 : List (α × β)) (k : α) :
    (l1 ++ l2).lookup k =
      match l1.lookup k with
      | some v => some v
      | none => l2.lookup k := by
  induction l1 with
  | nil => simp
  | cons kv rest ih =>
    obtain ⟨a, b⟩ := kv
    rw [List.cons_append, List.lookup_cons, List.lookup_cons]
    cases k == a with
    | true => rfl
    | false => exact ih

theorem lookup_map_of_upd_none {β : Type} (base upd : List (String × β)) (k : String)
    (h : upd.lookup k = none) :
    (base.map fun kv =>
      match upd.lookup kv.1 with
      | some v => (kv.1, v)
      | none => kv).lookup k = base.lookup k := by
  induction base with
  | nil => simp
  | cons kv rest ih =>
    obtain ⟨a, b⟩ := kv
    cases hup : upd.lookup a with
    | some v =>
      simp only [List.map_cons, hup]
      rw [List.lookup_cons, List.lookup_cons]
      cases hbe : (k == a) with
      | true =>
        exfalso
        have hk : k = a := by simpa using hbe
        rw [hk, hup] at h
        exact Option.noConfusion h
      | false => exact ih
    | none =>
      simp only [List.map_cons, hup]
      rw [List.lookup_cons, List.lookup_cons]
      cases hbe : (k == a) with
      | true => rfl
      | false => exact ih

theorem lookup_filter_of_none {β : Type} (l : List (String × β))
    (g : String × β → Bool) (k : String) (h : l.lookup k = none) :
    (l.filter g).lookup k = none := by
  induction l with
  | nil => simp
  | cons kv rest ih =>
    obtain ⟨a, b⟩ := kv
    rw [List.lookup_cons] at h
    cases hbe : (k == a) with
    | true => rw [hbe] at h; exact Option.noConfusion h
    | false =>
      rw [hbe] at h
      rw [List.filter_cons]
      cases g (a, b) with
      | true =>
        rw [if_pos rfl, List.lookup_cons, hbe]
        exact ih h
      | false =>
        rw [if_neg (by simp)]
        exact ih h

/-- Looking up a key the update dict does not bind goes through to the base
dict. -/
theorem lookup_pyDictUpdate_of_none {β : Type} (base upd : List (String × β))
    (k : String) (h : upd.lookup k = none) :
    (pyDictUpdate base upd).lookup k = base.lookup k := by
  unfold pyDictUpdate
  rw [lookup_append, lookup_map_of_upd_none base upd k h]
  cases hb : base.lookup k with
  | some v => rfl
  | none => exact lookup_filter_of_none upd _ k h

/-- C4 counterexample: with two system-role messages (contents `"s1"` then
`"s2"`) and no extra params, the emitted top-level `system` string is the
content of the *last* system message, not the first: the overwrite loop in
`_anthropic_format` keeps the final assignment. -/
theorem anthropic_first_system_counterexample :
    ((anthropicPayload [⟨"system", "s1"⟩, ⟨"system", "s2"⟩, ⟨"user", "hi"⟩]
        "m" 1 100 []).lookup "system" = some (.str "s2"))
    ∧ ((anthropicPayload [⟨"system", "s1"⟩, ⟨"system", "s2"⟩, ⟨"user", "hi"⟩]
        "m" 1 100 []).lookup "system" ≠ some (.str "s1")) := by
  refine ⟨rfl, ?_⟩
  intro h
  rw [show (anthropicPayload [⟨"system", "s1"⟩, ⟨"system", "s2"⟩, ⟨"user", "hi"⟩]
      "m" 1 100 []).lookup "system" = some (.str "s2") from rfl] at h
  simp at h

/-- C4 (amended): provided `extra_params` does not rebind `messages` or
`system`, the Anthropic payload's `messages` array is exactly the
non-system messages in order (hence has zero system-role entries), and the
top-level `system` entry is present iff the list has a system-role message
whose *last* occurrence has non-empty content, in which case it equals that
content (an empty last system content, being Python-falsy, produces no
`system` key at all). -/
theorem anthropic_system_partition
    (messages : List ChatMsg) (model : String) (temperature : Rat)
    (max_tokens : Nat) (extra_params : List (String × Json))
    (hm : extra_params.lookup "messages" = none)
    (hs : extra_params.lookup "system" = none) :
    ((anthropicPayload messages model temperature max_tokens extra_params).lookup "messages"
        = some (.arr ((messages.filter fun m => !(m.role == "system")).map ChatMsg.toJson)))
    ∧ (∀ m ∈ messages.filter fun m => !(m.role == "system"), m.role ≠ "system")
    ∧ ((anthropicPayload messages model temperature max_tokens extra_params).lookup "system"
        = match lastSystemContent messages with
          | some s => if s ≠ "" then some (.str s) else none
          | none => none) := by
  unfold anthropicPayload
  rw [anthropicPartition_eq]
  dsimp only
  refine ⟨?_, ?_, ?_⟩
  · rw [lookup_pyDictUpdate_of_none _ _ _ hm]
    cases hl : lastSystemContent messages with
    | none => rfl
    | some s =>
      dsimp only
      by_cases hse : s = ""
      · simp only [hse]
        rfl
      · rw [if_pos (by simpa using hse)]
        rw [lookup_append]
        rfl
  · intro m hmem
    have := List.of_mem_filter hmem
    simpa using this
  · rw [lookup_pyDictUpdate_of_none _ _ _ hs]
    cases hl : lastSystemContent messages with
    | none => rfl
    | some s =>
      dsimp only
      by_cases hse : s = ""
      · simp only [hse]
        rfl
      · rw [if_pos (by simpa using hse), if_pos (by simpa using hse)]
        rw [lookup_append]
        rfl

/-- C4 witness: one system message with non-empty content — the messages
array keeps only the user turn and the top-level `system` equals the
system content. -/
theorem anthropic_system_partition_witness :
    ((anthropicPayload [⟨"system", "be kind"⟩, ⟨"user", "hi"⟩] "m" 1 100 []).lookup "messages"
      = some (.arr [ChatMsg.toJson ⟨"user", "hi"⟩]))
    ∧ ((anthropicPayload [⟨"system", "be kind"⟩, ⟨"user", "hi"⟩] "m" 1 100 []).lookup "system"
      = some (.str "be kind")) := by
  have h := anthropic_system_partition [⟨"system", "be kind"⟩, ⟨"user", "hi"⟩]
    "m" 1 100 [] rfl rfl
  exact ⟨h.1, h.2.2⟩

/-! ### C1: configuration failures of the dispatcher -/

/-- A result whose error, if any, is not classified as a configuration
error. -/
def nonConfigResult (r : Except PyErr Json) : Prop :=
  ∀ e, r = .error e → isConfigError e = false

theorem nonConfig_getKey (j : Json) (k : String) :
    nonConfigResult (Json.getKey j k) := by
  intro e he
  cases j with
  | obj kvs =>
    have he2 : (match kvs.lookup k with
        | some v => (Except.ok v : Except PyErr Json)
        | none => .error (.keyError k)) = .error e := he
    cases hl : kvs.lookup k with
    | some v => rw [hl] at he2; exact Except.noConfusion he2
    | none => rw [hl] at he2; cases he2; rfl
  | null => cases he; rfl
  | bool b => cases he; rfl
  | num q => cases he; rfl
  | str s => cases he; rfl
  | arr xs => cases he; rfl

theorem nonConfig_getIdx (j : Json) (i : Nat) :
    nonConfigResult (Json.getIdx j i) := by
  intro e he
  cases j with
  | arr xs =>
    have he2 : (match xs.get? i with
        | some v => (Except.ok v : Except PyErr Json)
        | none => .error .indexError) = .error e := he
    cases hl : xs.get? i with
    | some v => rw [hl] at he2; exact Except.noConfusion he2
    | none => rw [hl] at he2; cases he2; rfl
  | null => cases he; rfl
  | bool b => cases he; rfl
  | num q => cases he; rfl
  | str s => cases he; rfl
  | obj kvs => cases he; rfl

theorem nonConfig_bind (r : Except PyErr Json) (f : Json → Except PyErr Json)
    (hr : nonConfigResult r) (hf : ∀ v, nonConfigResult (f v)) :
    nonConfigResult (r >>= f) := by
  intro e he
  cases r with
  | error e2 =>
    have : e2 = e := by
      have : (Except.error e2 : Except PyErr Json) >>= f = Except.error e2 := rfl
      rw [this] at he
      exact (Except.error.injEq _ _).mp he
    exact this ▸ hr e2 rfl
  | ok v =>
    have : (Except.ok v : Except PyErr Json) >>= f = f v := rfl
    rw [this] at he
    exact hf v e he

theorem nonConfig_customExtract (data : Json) (path : String) :
    nonConfigResult (customExtract data path) := by
  unfold customExtract
  generalize pySplit path '.' = segs
  induction segs generalizing data with
  | nil =>
    intro e he
    exact Except.noConfusion he
  | cons k ks ih =>
    rw [List.foldlM_cons]
    exact nonConfig_bind _ _ (nonConfig_getKey data k) fun v => ih v

theorem nonConfig_postAndExtract (transport : Transport) (req : HttpRequest)
    (extract : Json → Except PyErr Json)
    (hf : ∀ v, nonConfigResult (extract v)) :
    nonConfigResult (postAndExtract transport req extract).1 := by
  unfold postAndExtract httpPostJson
  cases transport req with
  | ok body => exact hf body
  | readTimeout =>
    intro e he
    have : PyErr.valueError timeoutMsg = e := by simpa using he
    rw [← this]
    decide
  | statusError s t =>
    intro e he
    have : PyErr.statusError s t = e := by simpa using he
    rw [← this]
    rfl
  | otherError t =>
    intro e he
    have : PyErr.otherError t = e := by simpa using he
    rw [← this]
    rfl

theorem nonConfig_providerChat (transport : Transport) (messages : List ChatMsg)
    (settings : AISettings) (hend : settings.api_endpoint ≠ "")
    (hfmt : settings.api_format ∈ recognizedFormats) :
    nonConfigResult (providerChat transport messages settings).1 := by
  unfold providerChat
  rw [if_neg hend]
  simp only [recognizedFormats, List.mem_cons, List.not_mem_nil, or_false] at hfmt
  rcases hfmt with h | h | h | h
  · rw [if_pos h]
    unfold openaiFormat
    exact nonConfig_postAndExtract _ _ _ fun v =>
      nonConfig_bind _ _
        (nonConfig_bind _ _
          (nonConfig_bind _ _ (nonConfig_getKey v "choices")
            fun w => nonConfig_getIdx w 0)
          fun w => nonConfig_getKey w "message")
        fun w => nonConfig_getKey w "content"
  · rw [if_neg (by simp [h]), if_pos h]
    unfold anthropicFormat
    exact nonConfig_postAndExtract _ _ _ fun v =>
      nonConfig_bind _ _
        (nonConfig_bind _ _ (nonConfig_getKey v "content")
          fun w => nonConfig_getIdx w 0)
        fun w => nonConfig_getKey w "text"
  · rw [if_neg (by simp [h]), if_neg (by simp [h]), if_pos h]
    unfold ollamaFormat
    exact nonConfig_postAndExtract _ _ _ fun v =>
      nonConfig_bind _ _ (nonConfig_getKey v "message")
        fun w => nonConfig_getKey w "content"
  · rw [if_neg (by simp [h]), if_neg (by simp [h]), if_neg (by simp [h]), if_pos h]
    unfold customFormat
    cases htmpl : (settings.extra_params.lookup "request_template").getD (.obj []) with
    | obj template =>
      exact nonConfig_postAndExtract _ _ _ fun v => by
        cases hrp : (settings.extra_params.lookup "response_path").getD (.str "response") with
        | str response_path =>
          intro e he
          exact nonConfig_customExtract v response_path e he
        | null => intro e he; cases he; rfl
        | bool b => intro e he; cases he; rfl
        | num q => intro e he; cases he; rfl
        | arr xs => intro e he; cases he; rfl
        | obj kvs => intro e he; cases he; rfl
    | null => intro e he; cases he; rfl
    | bool b => intro e he; cases he; rfl
    | num q => intro e he; cases he; rfl
    | str s => intro e he; cases he; rfl
    | arr xs => intro e he; cases he; rfl

theorem pyStartsWith_append (p s : String) : pyStartsWith (p ++ s) p = true := by
  unfold pyStartsWith
  rw [String.data_append]
  exact List.isPrefixOf_iff_prefix.mpr (List.prefix_append p.data s.data)

/-- C1: the dispatcher's chat fails with a configuration error exactly when
no API endpoint is configured or the format tag is unrecognized, and in
both failure cases performs zero outbound network calls; an unrecognized
tag is reported as unsupported (naming the tag), never silently mapped to
a default adapter; the unconfigured-default settings resolved from an
empty database are rejected by the routing guard with zero calls. -/
theorem dispatcher_configuration_error
    (transport : Transport) (messages : List ChatMsg) (settings : AISettings) :
    ((∃ e, (providerChat transport messages settings).1 = .error e ∧ isConfigError e = true)
        ↔ (settings.api_endpoint = "" ∨ settings.api_format ∉ recognizedFormats))
    ∧ ((settings.api_endpoint = "" ∨ settings.api_format ∉ recognizedFormats) →
        (providerChat transport messages settings).2 = [])
    ∧ (settings.api_endpoint ≠ "" → settings.api_format ∉ recognizedFormats →
        (providerChat transport messages settings).1 =
          .error (.valueError ("Unsupported API format: " ++ settings.api_format)))
    ∧ routerChat transport none messages = (.error (.valueError routerCfgMsg), []) := by
  have hempty : settings.api_endpoint = "" →
      providerChat transport messages settings =
        (.error (.valueError "API endpoint not configured"), []) := by
    intro h
    simp [providerChat, h]
  have hunsup : settings.api_endpoint ≠ "" →
      settings.api_format ∉ recognizedFormats →
      providerChat transport messages settings =
        (.error (.valueError ("Unsupported API format: " ++ settings.api_format)), []) := by
    intro hend hnot
    simp only [recognizedFormats, List.mem_cons, List.not_mem_nil, or_false,
      not_or] at hnot
    obtain ⟨h1, h2, h3, h4⟩ := hnot
    simp [providerChat, hend, h1, h2, h3, h4]
  refine ⟨⟨?_, ?_⟩, ?_, ?_, ?_⟩
  · rintro ⟨e, he, hcfg⟩
    by_contra hnot
    push_neg at hnot
    have := nonConfig_providerChat transport messages settings hnot.1 hnot.2 e he
    rw [this] at hcfg
    exact Bool.noConfusion hcfg
  · rintro (h | h)
    · exact ⟨.valueError "API endpoint not configured", by rw [hempty h], by decide⟩
    · by_cases hend : settings.api_endpoint = ""
      · exact ⟨.valueError "API endpoint not configured", by rw [hempty hend], by decide⟩
      · refine ⟨.valueError ("Unsupported API format: " ++ settings.api_format),
          by rw [hunsup hend h], ?_⟩
        simp [isConfigError, pyStartsWith_append]
  · rintro (h | h)
    · rw [hempty h]
    · by_cases hend : settings.api_endpoint = ""
      · rw [hempty hend]
      · rw [hunsup hend h]
  · intro hend hnot
    rw [hunsup hend hnot]
  · rfl

/-- C1 witness: the unconfigured defaults (empty endpoint) fail with a
configuration error and zero outbound requests, even against a transport
that would answer successfully. -/
theorem dispatcher_configuration_error_witness :
    (∃ e, (providerChat (fun _ => .ok (.str "ok")) [] (getUserSettings none)).1 = .error e
        ∧ isConfigError e = true)
    ∧ (providerChat (fun _ => .ok (.str "ok")) [] (getUserSettings none)).2 = [] := by
  have h := dispatcher_configuration_error (fun _ => .ok (.str "ok")) []
    (getUserSettings none)
  exact ⟨h.1.mpr (Or.inl rfl), h.2.1 (Or.inl rfl)⟩

/-! ### C8: read-timeout recovery in the chat flow -/

theorem providerChat_readTimeout (transport : Transport) (settings : AISettings)
    (messages : List ChatMsg) (htr : ∀ req, transport req = .readTimeout)
    (hend : settings.api_endpoint ≠ "")
    (hfmt : settings.api_format = "openai" ∨ settings.api_format = "anthropic" ∨
      settings.api_format = "ollama" ∨
      (settings.api_format = "custom" ∧
        ∃ kvs, (settings.extra_params.lookup "request_template").getD (.obj [])
          = .obj kvs)) :
    (providerChat transport messages settings).1 = .error (.valueError timeoutMsg) := by
  have hstep : ∀ (req : HttpRequest) (extract : Json → Except PyErr Json),
      (postAndExtract transport req extract).1 = .error (.valueError timeoutMsg) := by
    intro req extract
    unfold postAndExtract httpPostJson
    rw [htr req]
  unfold providerChat
  rw [if_neg hend]
  rcases hfmt with h | h | h | ⟨h, kvs, hkvs⟩
  · rw [if_pos h]
    unfold openaiFormat
    exact hstep _ _
  · rw [if_neg (by simp [h]), if_pos h]
    unfold anthropicFormat
    exact hstep _ _
  · rw [if_neg (by simp [h]), if_neg (by simp [h]), if_pos h]
    unfold ollamaFormat
    exact hstep _ _
  · rw [if_neg (by simp [h]), if_neg (by simp [h]), if_neg (by simp [h]), if_pos h]
    unfold customFormat
    rw [hkvs]
    exact hstep _ _

/-- C8 (amended): a read timeout from any adapter is converted into the one
fixed "took too long" `ValueError`, which the chat flow recognizes
(`timeoutLike`); on that condition the flow surfaces no hard error — the
user's message stays persisted in the same conversation, the friendly
still-working fallback is persisted as the assistant's turn and returned
as a successful response.  An upstream failure surfaces as the 502
gateway-style error (with only the user message persisted) whenever its
diagnostic text does not itself contain one of the timeout markers; a
non-timeout failure whose text does contain one takes the fallback path
instead (see the counterexample). -/
theorem chat_flow_timeout_recovery (convId : Nat) (userContent : String) :
    (∀ (transport : Transport) (settings : AISettings) (messages : List ChatMsg),
      (∀ req, transport req = .readTimeout) →
      settings.api_endpoint ≠ "" →
      (settings.api_format = "openai" ∨ settings.api_format = "anthropic" ∨
        settings.api_format = "ollama" ∨
        (settings.api_format = "custom" ∧
          ∃ kvs, (settings.extra_params.lookup "request_template").getD (.obj [])
            = .obj kvs)) →
      (providerChat transport messages settings).1 = .error (.valueError timeoutMsg))
    ∧ timeoutLike timeoutMsg = true
    ∧ (sendMessageAIPhase convId userContent (.error (.valueError timeoutMsg)) =
        (.success convId (.str fallbackMessage),
         [⟨convId, "user", .str userContent⟩,
          ⟨convId, "assistant", .str fallbackMessage⟩]))
    ∧ (∀ e : PyErr, timeoutLike e.text = false →
        sendMessageAIPhase convId userContent (.error e) =
          (.gatewayError convId ("AI service error: " ++ e.text),
           [⟨convId, "user", .str userContent⟩])) := by
  have htl : timeoutLike timeoutMsg = true := by
    set_option maxRecDepth 10000 in decide
  refine ⟨?_, htl, ?_, ?_⟩
  · intro transport settings messages htr hend hfmt
    exact providerChat_readTimeout transport settings messages htr hend hfmt
  · dsimp only [sendMessageAIPhase]
    have : timeoutLike (PyErr.valueError timeoutMsg).text = true := htl
    simp [this]
  · intro e he
    dsimp only [sendMessageAIPhase]
    simp [he]

/-- C8 counterexample: an upstream HTTP 504 status failure — not a read
timeout — whose rendered text contains "Gateway Timeout" matches the chat
flow's substring classifier and takes the fallback path, not the
gateway-style error path the claim requires for every non-timeout
upstream failure. -/
theorem chat_flow_gateway_timeout_counterexample :
    (sendMessageAIPhase 1 "hi" (.error (.statusError 504
        "Server error \x27504 Gateway Timeout\x27 for url \x27http://llm.local/v1/chat\x27"))).1
      = .success 1 (.str fallbackMessage) := by
  have htl : timeoutLike (PyErr.statusError 504
      "Server error \x27504 Gateway Timeout\x27 for url \x27http://llm.local/v1/chat\x27").text
      = true := by
    set_option maxRecDepth 10000 in decide
  dsimp only [sendMessageAIPhase]
  simp [htl]

/-- C8 witness: against an always-timing-out transport and a configured
openai-format endpoint, the flow persists the user turn and the fallback
assistant turn and returns them as a success. -/
theorem chat_flow_timeout_recovery_witness :
    sendMessageAIPhase 3 "hello"
      ((providerChat (fun _ => .readTimeout) []
        { provider_name := "lmstudio", api_format := "openai",
          api_endpoint := "http://localhost:1234/v1/chat/completions",
          api_key := "", model_name := "", temperature := 7/10,
          max_tokens := 1000, auth_type := "none", custom_headers := [],
          extra_params := [], vision_enabled := false }).1) =
      (.success 3 (.str fallbackMessage),
       [⟨3, "user", .str "hello"⟩, ⟨3, "assistant", .str fallbackMessage⟩]) := by
  have h := chat_flow_timeout_recovery 3 "hello"
  rw [h.1 (fun _ => .readTimeout) _ [] (fun _ => rfl) (by decide) (Or.inl rfl)]
  exact h.2.2.1

/-! ### C6: suggestion parsing -/

/-- The claim's validity conditions on an emitted suggestion. -/
def validSuggestion (s : Suggestion) : Prop :=
  s.action ∈ VALID_ACTIONS ∧ s.text ≠ "" ∧ pyLen s.text ≤ 80 ∧ pyLen s.payload ≤ 300

theorem pyLen_pyTake_le (s : String) (n : Nat) : pyLen (pyTake s n) ≤ n := by
  simp only [pyLen, pyTake]
  exact List.length_take_le n s.data

theorem validateOne_obj (item : Json) (s : Suggestion)
    (h : validateOne item = some s) : ∃ kvs, item = .obj kvs := by
  cases item with
  | obj kvs => exact ⟨kvs, rfl⟩
  | null => exact absurd h (by simp [validateOne])
  | bool b => exact absurd h (by simp [validateOne])
  | num q => exact absurd h (by simp [validateOne])
  | str t => exact absurd h (by simp [validateOne])
  | arr xs => exact absurd h (by simp [validateOne])

theorem validateOne_valid (item : Json) (s : Suggestion)
    (h : validateOne item = some s) : validSuggestion s := by
  obtain ⟨kvs, rfl⟩ := validateOne_obj item s h
  unfold validateOne at h
  dsimp only at h
  split at h
  case isTrue hcond =>
    rw [Bool.and_eq_true, decide_eq_true_eq] at hcond
    cases h
    refine ⟨?_, hcond.1, pyLen_pyTake_le _ 80, pyLen_pyTake_le _ 300⟩
    simpa using hcond.2
  case isFalse hcond => exact absurd h (by simp)

theorem validateItems_length_le : ∀ (items : List Json) (acc : List Suggestion),
    acc.length ≤ 2 → (validateItems items acc).length ≤ 3 := by
  intro items
  induction items with
  | nil =>
    intro acc hacc
    exact Nat.le_trans hacc (by omega)
  | cons item rest ih =>
    intro acc hacc
    unfold validateItems
    cases item with
    | obj kvs =>
      dsimp only
      cases hv : validateOne (.obj kvs) with
      | some s =>
        by_cases hlen : (acc ++ [s]).length ≥ 3
        · rw [if_pos hlen]
          simpa using hacc
        · rw [if_neg hlen]
          exact ih _ (by simp at hlen ⊢; omega)
      | none =>
        by_cases hlen : acc.length ≥ 3
        · rw [if_pos hlen]
          omega
        · rw [if_neg hlen]
          exact ih _ hacc
    | null => exact ih acc hacc
    | bool b => exact ih acc hacc
    | num q => exact ih acc hacc
    | str t => exact ih acc hacc
    | arr xs => exact ih acc hacc

theorem validateItems_all_valid : ∀ (items : List Json) (acc : List Suggestion),
    (∀ s ∈ acc, validSuggestion s) →
    ∀ s ∈ validateItems items acc, validSuggestion s := by
  intro items
  induction items with
  | nil => intro acc hacc; exact hacc
  | cons item rest ih =>
    intro acc hacc
    unfold validateItems
    cases item with
    | obj kvs =>
      dsimp only
      cases hv : validateOne (.obj kvs) with
      | some s =>
        have hacc2 : ∀ x ∈ acc ++ [s], validSuggestion x := by
          intro x hx
          rcases List.mem_append.mp hx with hx | hx
          · exact hacc x hx
          · rw [List.mem_singleton.mp hx]
            exact validateOne_valid _ _ hv
        by_cases hlen : (acc ++ [s]).length ≥ 3
        · rw [if_pos hlen]; exact hacc2
        · rw [if_neg hlen]; exact ih _ hacc2
      | none =>
        by_cases hlen : acc.length ≥ 3
        · rw [if_pos hlen]; exact hacc
        · rw [if_neg hlen]; exact ih _ hacc
    | null => exact ih acc hacc
    | bool b => exact ih acc hacc
    | num q => exact ih acc hacc
    | str t => exact ih acc hacc
    | arr xs => exact ih acc hacc

theorem validateItems_four (a b c d : Json) (sa sb sc : Suggestion)
    (ha : validateOne a = some sa) (hb : validateOne b = some sb)
    (hc : validateOne c = some sc) :
    validateItems [a, b, c, d] [] = [sa, sb, sc] := by
  obtain ⟨ka, rfl⟩ := validateOne_obj a sa ha
  obtain ⟨kb, rfl⟩ := validateOne_obj b sb hb
  obtain ⟨kc, rfl⟩ := validateOne_obj c sc hc
  simp [validateItems, ha, hb, hc]

/-- C6: the suggestion parser emits at most 3 suggestions, every one with a
recognized (lowercased) action, non-empty text, and text/payload truncated
to 80/300 characters; it returns `[]` whenever the bracket span is absent
(in particular on `"not valid json"`) or the extracted span fails to parse
as JSON; and from an array of 4 valid suggestion objects it keeps exactly
the first 3. -/
theorem suggestion_parser_props :
    (∀ (loads : String → Option (List Json)) (raw : String),
      (parseSuggestions loads raw).length ≤ 3
      ∧ ∀ s ∈ parseSuggestions loads raw, validSuggestion s)
    ∧ (∀ (loads : String → Option (List Json)) (raw : String),
        extractArraySpan raw = none → parseSuggestions loads raw = [])
    ∧ (∀ (loads : String → Option (List Json)) (raw span : String),
        extractArraySpan raw = some span → loads span = none →
          parseSuggestions loads raw = [])
    ∧ extractArraySpan "not valid json" = none
    ∧ (∀ (loads : String → Option (List Json)) (raw span : String)
        (a b c d : Json) (sa sb sc sd : Suggestion),
        extractArraySpan raw = some span → loads span = some [a, b, c, d] →
        validateOne a = some sa → validateOne b = some sb →
        validateOne c = some sc → validateOne d = some sd →
          parseSuggestions loads raw = [sa, sb, sc]) := by
  refine ⟨?_, ?_, ?_, ?_, ?_⟩
  · intro loads raw
    unfold parseSuggestions
    cases hspan : extractArraySpan raw with
    | none => exact ⟨by simp, by simp⟩
    | some span =>
      dsimp only
      cases hl : loads span with
      | none => exact ⟨by simp, by simp⟩
      | some parsed =>
        exact ⟨validateItems_length_le parsed [] (by simp),
          validateItems_all_valid parsed [] (by simp)⟩
  · intro loads raw h
    unfold parseSuggestions
    rw [h]
  · intro loads raw span hspan hl
    unfold parseSuggestions
    rw [hspan]
    dsimp only
    rw [hl]
  · set_option maxRecDepth 10000 in decide
  · intro loads raw span a b c d sa sb sc sd hspan hl ha hb hc hd
    unfold parseSuggestions
    rw [hspan]
    dsimp only
    rw [hl]
    exact validateItems_four a b c d sa sb sc ha hb hc

/-- A concrete LLM reply scenario for the parser: four valid suggestion
objects behind the bracket span `"[chips]"`, parsed by a concrete stand-in
for `json.loads`. -/
def demoChip1 : Json :=
  .obj [("text", .str "Log your energy level"), ("action", .str "checkin"),
        ("payload", .str "")]

def demoChip2 : Json :=
  .obj [("text", .str "Browse coping resources"), ("action", .str "resources"),
        ("payload", .str "")]

def demoChip3 : Json :=
  .obj [("text", .str "Try a breathing exercise"), ("action", .str "breathing"),
        ("payload", .str "")]

def demoChip4 : Json :=
  .obj [("text", .str "Plan the day together"), ("action", .str "message"),
        ("payload", .str "Can you help me plan my day?")]

def demoLoads : String → Option (List Json) :=
  fun s => if s = "[chips]" then some [demoChip1, demoChip2, demoChip3, demoChip4]
    else none

/-- C6 witness: four valid chips yield exactly the first three; the
unparseable reply yields `[]`. -/
theorem suggestion_parser_props_witness :
    parseSuggestions demoLoads "[chips]" =
      [⟨"Log your energy level", "checkin", ""⟩,
       ⟨"Browse coping resources", "resources", ""⟩,
       ⟨"Try a breathing exercise", "breathing", ""⟩]
    ∧ parseSuggestions demoLoads "not valid json" = [] := by
  constructor
  · exact suggestion_parser_props.2.2.2.2 demoLoads "[chips]" "[chips]"
      demoChip1 demoChip2 demoChip3 demoChip4
      ⟨"Log your energy level", "checkin", ""⟩
      ⟨"Browse coping resources", "resources", ""⟩
      ⟨"Try a breathing exercise", "breathing", ""⟩
      ⟨"Plan the day together", "message", "Can you help me plan my day?"⟩
      (by set_option maxRecDepth 10000 in decide) rfl
      (by set_option maxRecDepth 10000 in decide)
      (by set_option maxRecDepth 10000 in decide)
      (by set_option maxRecDepth 10000 in decide)
      (by set_option maxRecDepth 10000 in decide)
  · exact suggestion_parser_props.2.1 demoLoads "not valid json"
      suggestion_parser_props.2.2.2.1

/-! ### C7 and C10: the suggestion cooldown cache -/

/-- The cache holds no fresh entry for `uid` at `now` (no entry at all, or a
stale one): the invocations that run the request body. -/
def cacheStale (cache : SugCache) (uid : Nat) (now : Int) : Prop :=
  ∀ entry, List.lookup uid cache = some entry → cacheFresh entry now = false

theorem getSuggestions_fresh (cache : SugCache) (uid : Nat) (now : Int)
    (body : BodyOutcome) (entry : CacheEntry)
    (hl : List.lookup uid cache = some entry) (hf : cacheFresh entry now = true) :
    getSuggestions cache uid now body = (entry.cached, cache, 0) := by
  unfold getSuggestions
  rw [hl]
  dsimp only
  rw [hf]
  rfl

theorem getSuggestions_stale (cache : SugCache) (uid : Nat) (now : Int)
    (body : BodyOutcome) (hs : cacheStale cache uid now) :
    getSuggestions cache uid now body = getSuggestionsBody cache uid now body := by
  unfold getSuggestions
  cases hl : List.lookup uid cache with
  | none => rfl
  | some entry =>
    dsimp only
    rw [hs entry hl]
    rfl

theorem lookup_setEntry : ∀ (cache : SugCache) (uid : Nat) (entry : CacheEntry),
    (List.lookup uid cache).isSome = true →
    List.lookup uid (cache.map fun kv => if kv.1 = uid then (uid, entry) else kv)
      = some entry := by
  intro cache uid entry
  induction cache with
  | nil => intro h; simp at h
  | cons kv rest ih =>
    obtain ⟨a, b⟩ := kv
    intro h
    by_cases ha : a = uid
    · subst ha
      simp only [List.map_cons, if_pos rfl]
      rw [List.lookup_cons]
      simp
    · simp only [List.map_cons, if_neg (by simpa using ha)]
      rw [List.lookup_cons]
      have hbe : (uid == a) = false := by
        simp [Ne.symm ha]
      rw [hbe]
      refine ih ?_
      rw [List.lookup_cons, hbe] at h
      exact h

theorem lookup_cacheSet (cache : SugCache) (uid : Nat) (entry : CacheEntry) :
    List.lookup uid (cacheSet cache uid entry) = some entry := by
  unfold cacheSet
  by_cases h : (List.lookup uid cache).isSome = true
  · rw [if_pos h]
    exact lookup_setEntry cache uid entry h
  · rw [if_neg h]
    rw [lookup_append]
    cases hl : List.lookup uid cache with
    | some e => rw [hl] at h; simp at h
    | none =>
      dsimp only
      rw [List.lookup_cons]
      simp

/-- C7: an invocation finding a cache entry younger than the 10-minute
cooldown returns the cached suggestion list unchanged, leaves the cache
untouched and performs no upstream call; consequently, after a call that
ran the body (stale or absent entry) and completed with at most one
upstream call, any second call by the same user within the cooldown window
returns the identical list with zero further upstream calls — at most one
upstream call across the two. -/
theorem suggestion_cooldown (cache : SugCache) (uid : Nat) (now : Int) :
    (∀ (body : BodyOutcome) (entry : CacheEntry),
        List.lookup uid cache = some entry → cacheFresh entry now = true →
          getSuggestions cache uid now body = (entry.cached, cache, 0))
    ∧ (∀ (calls : Nat) (sugs : List Suggestion) (t2 : Int) (body2 : BodyOutcome),
        cacheStale cache uid now → calls ≤ 1 →
        getSuggestions cache uid now (.completes calls sugs)
          = (sugs, cacheSet cache uid ⟨now, sugs⟩, calls)
        ∧ (((t2 - now : Int) : Rat) / 60 < 10 →
            getSuggestions (cacheSet cache uid ⟨now, sugs⟩) uid t2 body2
              = (sugs, cacheSet cache uid ⟨now, sugs⟩, 0)
            ∧ calls
              + (getSuggestions (cacheSet cache uid ⟨now, sugs⟩) uid t2 body2).2.2
              ≤ 1)) := by
  refine ⟨?_, ?_⟩
  · intro body entry hl hf
    exact getSuggestions_fresh cache uid now body entry hl hf
  · intro calls sugs t2 body2 hs hcalls
    have h1 : getSuggestions cache uid now (.completes calls sugs)
        = (sugs, cacheSet cache uid ⟨now, sugs⟩, calls) := by
      rw [getSuggestions_stale cache uid now _ hs]
      rfl
    refine ⟨h1, ?_⟩
    intro ht2
    have hfresh : cacheFresh ⟨now, sugs⟩ t2 = true := by
      simp only [cacheFresh, COOLDOWN_MINUTES]
      exact decide_eq_true ht2
    have h2 : getSuggestions (cacheSet cache uid ⟨now, sugs⟩) uid t2 body2
        = (sugs, cacheSet cache uid ⟨now, sugs⟩, 0) :=
      getSuggestions_fresh _ uid t2 body2 ⟨now, sugs⟩
        (lookup_cacheSet cache uid ⟨now, sugs⟩) hfresh
    refine ⟨h2, ?_⟩
    rw [h2]
    show calls + 0 ≤ 1
    omega

/-- C7 witness: with an empty cache, a first call completing with one
upstream call caches its result, and a second call 5 minutes later returns
the identical list with zero upstream calls. -/
theorem suggestion_cooldown_witness :
    getSuggestions [] 1 0 (.completes 1 [⟨"Log mood", "checkin", ""⟩])
      = ([⟨"Log mood", "checkin", ""⟩], cacheSet [] 1 ⟨0, [⟨"Log mood", "checkin", ""⟩]⟩, 1)
    ∧ getSuggestions (cacheSet [] 1 ⟨0, [⟨"Log mood", "checkin", ""⟩]⟩) 1 300 .noConv
      = ([⟨"Log mood", "checkin", ""⟩], cacheSet [] 1 ⟨0, [⟨"Log mood", "checkin", ""⟩]⟩, 0) := by
  have h := (suggestion_cooldown [] 1 0).2 1 [⟨"Log mood", "checkin", ""⟩] 300 .noConv
    (fun entry he => by simp at he) (by omega)
  exact ⟨h.1, (h.2 (by norm_num)).1⟩

/-- C10: when the post-cooldown body raises at any stage, the empty list is
written into the user's cache entry stamped with the request's start time
`now`, so any call within the next 10 minutes returns that cached empty
list with zero upstream calls; a nonexistent or foreign conversation
instead returns the empty list without touching the cache. -/
theorem suggestion_failure_cached (cache : SugCache) (uid : Nat) (now : Int) :
    (∀ calls : Nat, cacheStale cache uid now →
        getSuggestions cache uid now (.raises calls)
          = ([], cacheSet cache uid ⟨now, []⟩, calls))
    ∧ (∀ (t2 : Int) (body2 : BodyOutcome), ((t2 - now : Int) : Rat) / 60 < 10 →
        getSuggestions (cacheSet cache uid ⟨now, []⟩) uid t2 body2
          = ([], cacheSet cache uid ⟨now, []⟩, 0))
    ∧ (cacheStale cache uid now →
        getSuggestions cache uid now .noConv = ([], cache, 0)) := by
  refine ⟨?_, ?_, ?_⟩
  · intro calls hs
    rw [getSuggestions_stale cache uid now _ hs]
    rfl
  · intro t2 body2 ht2
    have hfresh : cacheFresh ⟨now, []⟩ t2 = true := by
      simp only [cacheFresh, COOLDOWN_MINUTES]
      exact decide_eq_true ht2
    exact getSuggestions_fresh _ uid t2 body2 ⟨now, []⟩
      (lookup_cacheSet cache uid ⟨now, []⟩) hfresh
  · intro hs
    rw [getSuggestions_stale cache uid now _ hs]
    rfl

/-- C10 witness: a raising body with an empty cache caches `[]` stamped at
the start time; a call 9 minutes later returns the cached `[]` with no
upstream call; a missing conversation leaves the cache unchanged. -/
theorem suggestion_failure_cached_witness :
    getSuggestions [] 2 100 (.raises 1) = ([], cacheSet [] 2 ⟨100, []⟩, 1)
    ∧ getSuggestions (cacheSet [] 2 ⟨100, []⟩) 2 640 .noConv
        = ([], cacheSet [] 2 ⟨100, []⟩, 0)
    ∧ getSuggestions [] 2 100 .noConv = ([], [], 0) := by
  have h := suggestion_failure_cached [] 2 100
  exact ⟨h.1 1 (fun entry he => by simp at he),
    h.2.1 640 .noConv (by norm_num),
    h.2.2 (fun entry he => by simp at he)⟩

end AccessBot
